import Mathlib

/-!
Verification of the menu bridge module
(`src/packages/teams-js/src/private/menus.ts`).

The module owns three command channels (navigation-bar menu, action menu,
view-configuration menu), each with a single-slot local-interception handler,
an outbound define/show command, and an inbound item-press dispatch with
fallback-to-host semantics.

Shallow embedding conventions:
- The three module-level handler slots and the session-initialization flag
  form a `MenusState`.  A slot holds `none` when the TypeScript `let` binding
  is still undefined.
- A handler `(id: string) => boolean` that may throw is embedded as
  `String → Except ε Bool`, where `ε` is the type of thrown values.
- `sendMessageToParent(func, args)` is recorded as a `SentMessage` appended to
  the list of outbound messages produced by the call; an operation that raises
  produces no messages.
- `ensureInitialized()` (the Session Guard) raises the Not-initialized error
  when the session flag is false, embedded as `Except.error .notInitialized`.
- Stateful operations return `MenusState ε × Except (MenusError ε) (List SentMessage)`:
  the state after the call, and either the error raised or the list of
  outbound messages sent.
-/

namespace menus

/-- Type of list to display in the Navigation Bar Menu (`MenuListType`). -/
inductive MenuListType where
  | dropDown
  | popOver

/-- Information about an item in View Configuration (`ViewConfiguration`). -/
structure ViewConfiguration where
  id : String
  title : String
  contentDescription : Option String

mutual

/-- A menu item for Action Menu and Navigation Bar Menu (`MenuItem`).
Fields in source order: `id`, `title`, `icon`, `iconSelected?`,
`contentDescription?`, `enabled` (defaults true), `viewData` (left undefined
by the constructor), `selected` (defaults false). -/
inductive MenuItem where
  | mk (id : String) (title : String) (icon : String)
      (iconSelected : Option String) (contentDescription : Option String)
      (enabled : Bool) (viewData : Option ViewData) (selected : Bool)

/-- Information about the view shown on Navigation Bar Menu item selection
(`ViewData`): optional header title, a list type, a list of menu items. -/
inductive ViewData where
  | mk (listTitle : Option String) (listType : MenuListType)
      (listItems : List MenuItem)

end

/-- Parameters for `showActionMenu` (`ActionMenuParameters`). -/
structure ActionMenuParameters where
  title : String
  items : List MenuItem

/-- A positional argument of an outbound command sent through
`sendMessageToParent`.  The module sends four shapes of argument. -/
inductive MessageArg where
  | idArg (id : String)
  | viewConfigsArg (viewConfig : List ViewConfiguration)
  | menuItemsArg (items : List MenuItem)
  | actionParamsArg (params : ActionMenuParameters)

/-- One outbound command: the function name passed to `sendMessageToParent`
and its positional argument list. -/
structure SentMessage where
  func : String
  args : List MessageArg

/-- Errors the module can raise: the Session Guard's Not-initialized error,
or a value of type `ε` thrown by a registered selection handler. -/
inductive MenusError (ε : Type) where
  | notInitialized
  | handlerFault (e : ε)

/-- The module-level mutable state: whether the bridge session is
initialized, and the three single-slot handler references
`navBarMenuItemPressHandler`, `actionMenuItemPressHandler`,
`viewConfigItemPressHandler` (each `none` while still undefined). -/
structure MenusState (ε : Type) where
  initialized : Bool
  navBarMenuItemPressHandler : Option (String → Except ε Bool)
  actionMenuItemPressHandler : Option (String → Except ε Bool)
  viewConfigItemPressHandler : Option (String → Except ε Bool)

variable {ε : Type}

/-- `ensureInitialized()` from `internal/internalAPIs`: raises the
Not-initialized error unless the session handshake has completed. -/
def ensureInitialized (s : MenusState ε) : Except (MenusError ε) Unit :=
  if s.initialized then Except.ok () else Except.error MenusError.notInitialized

/-- `setUpViews(viewConfig, handler)`: `ensureInitialized()`, store the
handler in `viewConfigItemPressHandler`, then
`sendMessageToParent('setUpViews', [viewConfig])`. -/
def setUpViews (s : MenusState ε) (viewConfig : List ViewConfiguration)
    (handler : String → Except ε Bool) :
    MenusState ε × Except (MenusError ε) (List SentMessage) :=
  match ensureInitialized s with
  | Except.error e => (s, Except.error e)
  | Except.ok () =>
      ({ s with viewConfigItemPressHandler := some handler },
       Except.ok [⟨"setUpViews", [MessageArg.viewConfigsArg viewConfig]⟩])

/-- `setNavBarMenu(items, handler)`: `ensureInitialized()`, store the handler
in `navBarMenuItemPressHandler`, then
`sendMessageToParent('setNavBarMenu', [items])`. -/
def setNavBarMenu (s : MenusState ε) (items : List MenuItem)
    (handler : String → Except ε Bool) :
    MenusState ε × Except (MenusError ε) (List SentMessage) :=
  match ensureInitialized s with
  | Except.error e => (s, Except.error e)
  | Except.ok () =>
      ({ s with navBarMenuItemPressHandler := some handler },
       Except.ok [⟨"setNavBarMenu", [MessageArg.menuItemsArg items]⟩])

/-- `showActionMenu(params, handler)`: `ensureInitialized()`, store the
handler in `actionMenuItemPressHandler`, then
`sendMessageToParent('showActionMenu', [params])`. -/
def showActionMenu (s : MenusState ε) (params : ActionMenuParameters)
    (handler : String → Except ε Bool) :
    MenusState ε × Except (MenusError ε) (List SentMessage) :=
  match ensureInitialized s with
  | Except.error e => (s, Except.error e)
  | Except.ok () =>
      ({ s with actionMenuItemPressHandler := some handler },
       Except.ok [⟨"showActionMenu", [MessageArg.actionParamsArg params]⟩])

/-- The shared tail of each dispatch function's unhandled branch:
`ensureInitialized(); sendMessageToParent(func, [id])`. -/
def sendFallback (s : MenusState ε) (func : String) (id : String) :
    Except (MenusError ε) (List SentMessage) :=
  match ensureInitialized s with
  | Except.error e => Except.error e
  | Except.ok () => Except.ok [⟨func, [MessageArg.idArg id]⟩]

/-- `handleViewConfigItemPress(id)`: if no handler is stored or the stored
handler returns false, `ensureInitialized()` and send the fallback command
`viewConfigItemPress` carrying `id`; an exception thrown by the handler
propagates. -/
def handleViewConfigItemPress (s : MenusState ε) (id : String) :
    Except (MenusError ε) (List SentMessage) :=
  match s.viewConfigItemPressHandler with
  | none => sendFallback s "viewConfigItemPress" id
  | some handler =>
      match handler id with
      | Except.error e => Except.error (MenusError.handlerFault e)
      | Except.ok handled =>
          if handled then Except.ok []
          else sendFallback s "viewConfigItemPress" id

/-- `handleNavBarMenuItemPress(id)`: if no handler is stored or the stored
handler returns false, `ensureInitialized()` and send the fallback command
`handleNavBarMenuItemPress` carrying `id`; an exception thrown by the handler
propagates. -/
def handleNavBarMenuItemPress (s : MenusState ε) (id : String) :
    Except (MenusError ε) (List SentMessage) :=
  match s.navBarMenuItemPressHandler with
  | none => sendFallback s "handleNavBarMenuItemPress" id
  | some handler =>
      match handler id with
      | Except.error e => Except.error (MenusError.handlerFault e)
      | Except.ok handled =>
          if handled then Except.ok []
          else sendFallback s "handleNavBarMenuItemPress" id

/-- `handleActionMenuItemPress(id)`: if no handler is stored or the stored
handler returns false, `ensureInitialized()` and send the fallback command
`handleActionMenuItemPress` carrying `id`; an exception thrown by the handler
propagates. -/
def handleActionMenuItemPress (s : MenusState ε) (id : String) :
    Except (MenusError ε) (List SentMessage) :=
  match s.actionMenuItemPressHandler with
  | none => sendFallback s "handleActionMenuItemPress" id
  | some handler =>
      match handler id with
      | Except.error e => Except.error (MenusError.handlerFault e)
      | Except.ok handled =>
          if handled then Except.ok []
          else sendFallback s "handleActionMenuItemPress" id

/-- The three command channels of the module. -/
inductive Channel where
  | navBar
  | action
  | viewConfig

/-- The handler slot belonging to a channel. -/
def handlerFor (s : MenusState ε) : Channel → Option (String → Except ε Bool)
  | Channel.navBar => s.navBarMenuItemPressHandler
  | Channel.action => s.actionMenuItemPressHandler
  | Channel.viewConfig => s.viewConfigItemPressHandler

/-- The name of the outbound fallback command a channel's dispatch function
passes to `sendMessageToParent` (read off the source literals). -/
def fallbackCommandName : Channel → String
  | Channel.navBar => "handleNavBarMenuItemPress"
  | Channel.action => "handleActionMenuItemPress"
  | Channel.viewConfig => "viewConfigItemPress"

/-- Inbound dispatch for a channel: the dispatch function the module wires to
that channel's inbound item-press command. -/
def dispatch (s : MenusState ε) : Channel → String → Except (MenusError ε) (List SentMessage)
  | Channel.navBar => handleNavBarMenuItemPress s
  | Channel.action => handleActionMenuItemPress s
  | Channel.viewConfig => handleViewConfigItemPress s

/-- Modelled from the spec: the Capability Registry (the `runtime` object of
`public/runtime.ts`, which is not among the sources) is a process-wide table
of host-declared feature flags, populated once during the excluded handshake.
Before it is populated no flags are declared, so the truthiness test in
`isSupported` yields false; once populated, `menusFlag` is the boolean value
of its "menus" flag. -/
structure Runtime where
  populated : Bool
  menusFlag : Bool

/-- Truthiness of `runtime.supports.menus`: false while the registry is
unpopulated, the "menus" flag once populated. -/
def runtimeSupportsMenus (rt : Runtime) : Bool :=
  rt.populated && rt.menusFlag

/-- `isSupported()`: `return runtime.supports.menus ? true : false`.  The
returned triple makes the absence of effects statable: the boolean result,
the (unchanged) module state, and the (empty) list of outbound messages. -/
def isSupported (rt : Runtime) (s : MenusState ε) :
    Bool × MenusState ε × List SentMessage :=
  (if runtimeSupportsMenus rt then true else false, s, [])

/-- C1. For every channel and every identifier delivered inbound on an
initialized session: if a handler is stored for the channel and returns true
for the identifier, no outbound fallback command is sent; if the handler
returns false or no handler is stored, exactly one outbound fallback command
carrying the identifier as its sole argument is sent. -/
theorem C1_dispatch_fallback (s : MenusState ε) (c : Channel) (id : String)
    (hinit : s.initialized = true) :
    (∀ h, handlerFor s c = some h → h id = Except.ok true →
        dispatch s c id = Except.ok []) ∧
    (handlerFor s c = none →
        dispatch s c id
          = Except.ok [⟨fallbackCommandName c, [MessageArg.idArg id]⟩]) ∧
    (∀ h, handlerFor s c = some h → h id = Except.ok false →
        dispatch s c id
          = Except.ok [⟨fallbackCommandName c, [MessageArg.idArg id]⟩]) := by
  cases c <;>
    refine ⟨fun h hreg htrue => ?_, fun hnone => ?_, fun h hreg hfalse => ?_⟩ <;>
    simp_all [dispatch, handleNavBarMenuItemPress, handleActionMenuItemPress,
      handleViewConfigItemPress, handlerFor, fallbackCommandName, sendFallback,
      ensureInitialized]

/-- C1 witness: on an initialized session with an empty navigation-bar slot,
dispatching the identifier "a" sends exactly one fallback command. -/
theorem C1_dispatch_fallback_witness :
    dispatch (⟨true, none, none, none⟩ : MenusState String) Channel.navBar "a"
      = Except.ok [⟨"handleNavBarMenuItemPress", [MessageArg.idArg "a"]⟩] :=
  (C1_dispatch_fallback (⟨true, none, none, none⟩ : MenusState String)
      Channel.navBar "a" rfl).2.1 rfl

/-- C2 counterexample: the navigation-bar fallback command the code sends is
named `handleNavBarMenuItemPress`, not `navBarMenuItemPress` as the claim
states, and the action-menu fallback is named `handleActionMenuItemPress`,
not `actionMenuItemPress`. -/
theorem C2_fallback_name_counterexample :
    dispatch (⟨true, none, none, none⟩ : MenusState Unit) Channel.navBar "a"
      = Except.ok [⟨"handleNavBarMenuItemPress", [MessageArg.idArg "a"]⟩] ∧
    dispatch (⟨true, none, none, none⟩ : MenusState Unit) Channel.action "a"
      = Except.ok [⟨"handleActionMenuItemPress", [MessageArg.idArg "a"]⟩] ∧
    "handleNavBarMenuItemPress" ≠ "navBarMenuItemPress" ∧
    "handleActionMenuItemPress" ≠ "actionMenuItemPress" :=
  ⟨rfl, rfl, by decide, by decide⟩

/-- C2 (amended). When a navigation-bar menu item press is not handled
locally (handler absent or returning false) on an initialized session, the
outbound fallback command sent is named `handleNavBarMenuItemPress` with the
selected identifier as sole argument; likewise the action-menu fallback
command is named `handleActionMenuItemPress`. -/
theorem C2_fallback_names (s : MenusState ε) (id : String)
    (hinit : s.initialized = true) :
    (s.navBarMenuItemPressHandler = none →
        handleNavBarMenuItemPress s id
          = Except.ok [⟨"handleNavBarMenuItemPress", [MessageArg.idArg id]⟩]) ∧
    (∀ h, s.navBarMenuItemPressHandler = some h → h id = Except.ok false →
        handleNavBarMenuItemPress s id
          = Except.ok [⟨"handleNavBarMenuItemPress", [MessageArg.idArg id]⟩]) ∧
    (s.actionMenuItemPressHandler = none →
        handleActionMenuItemPress s id
          = Except.ok [⟨"handleActionMenuItemPress", [MessageArg.idArg id]⟩]) ∧
    (∀ h, s.actionMenuItemPressHandler = some h → h id = Except.ok false →
        handleActionMenuItemPress s id
          = Except.ok [⟨"handleActionMenuItemPress", [MessageArg.idArg id]⟩]) := by
  refine ⟨fun hnone => ?_, fun h hreg hfalse => ?_,
      fun hnone => ?_, fun h hreg hfalse => ?_⟩ <;>
    simp_all [handleNavBarMenuItemPress, handleActionMenuItemPress, sendFallback,
      ensureInitialized]

/-- C2 (amended) witness: unhandled action-menu press on an initialized
session sends the `handleActionMenuItemPress` fallback carrying "a". -/
theorem C2_fallback_names_witness :
    handleActionMenuItemPress (⟨true, none, none, none⟩ : MenusState String) "a"
      = Except.ok [⟨"handleActionMenuItemPress", [MessageArg.idArg "a"]⟩] :=
  (C2_fallback_names (⟨true, none, none, none⟩ : MenusState String) "a" rfl).2.2.1 rfl

/-- C3. Calling any of the three define/show operations when the session is
not initialized raises the Not-initialized failure synchronously and sends
nothing outward: the result is the unchanged state paired with the error (no
message list is produced). -/
theorem C3_not_initialized (s : MenusState ε) (hinit : s.initialized = false) :
    (∀ viewConfig handler, setUpViews s viewConfig handler
        = (s, Except.error MenusError.notInitialized)) ∧
    (∀ items handler, setNavBarMenu s items handler
        = (s, Except.error MenusError.notInitialized)) ∧
    (∀ params handler, showActionMenu s params handler
        = (s, Except.error MenusError.notInitialized)) := by
  refine ⟨fun v h => ?_, fun i h => ?_, fun p h => ?_⟩ <;>
    simp [setUpViews, setNavBarMenu, showActionMenu, ensureInitialized, hinit]

/-- C3 witness: `setUpViews` on an uninitialized session fails with the
Not-initialized error and sends nothing. -/
theorem C3_not_initialized_witness :
    setUpViews (⟨false, none, none, none⟩ : MenusState String) []
        (fun _ => Except.ok true)
      = ((⟨false, none, none, none⟩ : MenusState String),
         Except.error MenusError.notInitialized) :=
  (C3_not_initialized (⟨false, none, none, none⟩ : MenusState String) rfl).1 []
    (fun _ => Except.ok true)

/-- C4. For every channel on an initialized session: registering handler H1
and then H2 before any dispatch leaves H2 as the only active handler — the
final slot holds H2, the second registration's outcome is identical to
registering H2 alone (so H1 has no residual effect and can never be invoked),
and a subsequent inbound press behaves exactly as in a state whose slot holds
H2. -/
theorem C4_last_writer_wins (s : MenusState ε)
    (H1 H2 : String → Except ε Bool) (hinit : s.initialized = true) :
    (∀ items1 items2 : List MenuItem,
        (setNavBarMenu (setNavBarMenu s items1 H1).1 items2
            H2).1.navBarMenuItemPressHandler = some H2 ∧
        setNavBarMenu (setNavBarMenu s items1 H1).1 items2 H2
          = setNavBarMenu s items2 H2 ∧
        ∀ id, dispatch (setNavBarMenu (setNavBarMenu s items1 H1).1 items2 H2).1
            Channel.navBar id
          = dispatch { s with navBarMenuItemPressHandler := some H2 }
              Channel.navBar id) ∧
    (∀ params1 params2 : ActionMenuParameters,
        (showActionMenu (showActionMenu s params1 H1).1 params2
            H2).1.actionMenuItemPressHandler = some H2 ∧
        showActionMenu (showActionMenu s params1 H1).1 params2 H2
          = showActionMenu s params2 H2 ∧
        ∀ id, dispatch (showActionMenu (showActionMenu s params1 H1).1 params2 H2).1
            Channel.action id
          = dispatch { s with actionMenuItemPressHandler := some H2 }
              Channel.action id) ∧
    (∀ viewConfig1 viewConfig2 : List ViewConfiguration,
        (setUpViews (setUpViews s viewConfig1 H1).1 viewConfig2
            H2).1.viewConfigItemPressHandler = some H2 ∧
        setUpViews (setUpViews s viewConfig1 H1).1 viewConfig2 H2
          = setUpViews s viewConfig2 H2 ∧
        ∀ id, dispatch (setUpViews (setUpViews s viewConfig1 H1).1 viewConfig2 H2).1
            Channel.viewConfig id
          = dispatch { s with viewConfigItemPressHandler := some H2 }
              Channel.viewConfig id) := by
  refine ⟨fun a b => ?_, fun a b => ?_, fun a b => ?_⟩ <;>
    simp [setNavBarMenu, showActionMenu, setUpViews, ensureInitialized, hinit]

/-- C4 witness: after registering one navigation-bar handler and then a
second one, the slot holds the second handler. -/
theorem C4_last_writer_wins_witness :
    (setNavBarMenu (setNavBarMenu (⟨true, none, none, none⟩ : MenusState String)
        [] (fun _ => Except.ok true)).1 []
        (fun _ => Except.ok false)).1.navBarMenuItemPressHandler
      = some (fun _ => Except.ok false) :=
  ((C4_last_writer_wins (⟨true, none, none, none⟩ : MenusState String)
      (fun _ => Except.ok true) (fun _ => Except.ok false) rfl).1 [] []).1

/-- C5. Each define/show operation on an initialized session stores the
supplied handler in its channel's slot (overwriting any previous value),
sends exactly one named command whose sole positional argument is the
caller's payload, and raises no error. -/
theorem C5_define_show_effect (s : MenusState ε) (hinit : s.initialized = true) :
    (∀ viewConfig handler, setUpViews s viewConfig handler
        = ({ s with viewConfigItemPressHandler := some handler },
           Except.ok [⟨"setUpViews", [MessageArg.viewConfigsArg viewConfig]⟩])) ∧
    (∀ items handler, setNavBarMenu s items handler
        = ({ s with navBarMenuItemPressHandler := some handler },
           Except.ok [⟨"setNavBarMenu", [MessageArg.menuItemsArg items]⟩])) ∧
    (∀ params handler, showActionMenu s params handler
        = ({ s with actionMenuItemPressHandler := some handler },
           Except.ok [⟨"showActionMenu", [MessageArg.actionParamsArg params]⟩])) := by
  refine ⟨fun v h => ?_, fun i h => ?_, fun p h => ?_⟩ <;>
    simp [setUpViews, setNavBarMenu, showActionMenu, ensureInitialized, hinit]

/-- C5 witness: `setNavBarMenu` with a one-entry menu stores the handler and
sends the `setNavBarMenu` command with the item list as sole argument. -/
theorem C5_define_show_effect_witness :
    setNavBarMenu (⟨true, none, none, none⟩ : MenusState String)
        [MenuItem.mk "a" "Alpha" "<svg/>" none none true none false]
        (fun _ => Except.ok true)
      = ((⟨true, some (fun _ => Except.ok true), none, none⟩ : MenusState String),
         Except.ok [⟨"setNavBarMenu", [MessageArg.menuItemsArg
           [MenuItem.mk "a" "Alpha" "<svg/>" none none true none false]]⟩]) :=
  (C5_define_show_effect (⟨true, none, none, none⟩ : MenusState String) rfl).2.1
    [MenuItem.mk "a" "Alpha" "<svg/>" none none true none false]
    (fun _ => Except.ok true)

/-- C6. `isSupported()` returns false while the Capability Registry is
unpopulated, returns exactly the registry's "menus" flag once populated, and
leaves the module state unchanged while sending nothing. -/
theorem C6_isSupported_pure (rt : Runtime) (s : MenusState ε) :
    (rt.populated = false → (isSupported rt s).1 = false) ∧
    (rt.populated = true → (isSupported rt s).1 = rt.menusFlag) ∧
    (isSupported rt s).2.1 = s ∧
    (isSupported rt s).2.2 = ([] : List SentMessage) := by
  refine ⟨fun hp => ?_, fun hp => ?_, rfl, rfl⟩ <;>
    cases hm : rt.menusFlag <;>
    simp [isSupported, runtimeSupportsMenus, hp, hm]

/-- C6 witness: unpopulated registry gives false; populated registry with the
menus flag set gives true. -/
theorem C6_isSupported_pure_witness :
    (isSupported ⟨false, true⟩ (⟨true, none, none, none⟩ : MenusState String)).1
      = false ∧
    (isSupported ⟨true, true⟩ (⟨true, none, none, none⟩ : MenusState String)).1
      = true :=
  ⟨(C6_isSupported_pure ⟨false, true⟩
      (⟨true, none, none, none⟩ : MenusState String)).1 rfl,
   (C6_isSupported_pure ⟨true, true⟩
      (⟨true, none, none, none⟩ : MenusState String)).2.1 rfl⟩

/-- C7. If the stored selection handler of any channel raises during
dispatch, the exception propagates uncaught to the dispatch caller as a
handler-fault carrying the thrown value, and no fallback command is sent (the
dispatch produces no outbound message list). -/
theorem C7_handler_fault_propagates (s : MenusState ε) (c : Channel)
    (h : String → Except ε Bool) (id : String) (e : ε)
    (hreg : handlerFor s c = some h) (hthrow : h id = Except.error e) :
    dispatch s c id = Except.error (MenusError.handlerFault e) ∧
    ∀ msgs, dispatch s c id ≠ Except.ok msgs := by
  have hd : dispatch s c id = Except.error (MenusError.handlerFault e) := by
    cases c <;>
      simp_all [dispatch, handleNavBarMenuItemPress, handleActionMenuItemPress,
        handleViewConfigItemPress, handlerFor]
  exact ⟨hd, fun msgs hcontra => by simp [hd] at hcontra⟩

/-- C7 witness: a navigation-bar handler throwing "boom" makes the dispatch
fail with that handler-fault. -/
theorem C7_handler_fault_propagates_witness :
    dispatch (⟨true, some (fun _ => Except.error "boom"), none,
        none⟩ : MenusState String) Channel.navBar "a"
      = Except.error (MenusError.handlerFault "boom") :=
  (C7_handler_fault_propagates
      (⟨true, some (fun _ => Except.error "boom"), none, none⟩ : MenusState String)
      Channel.navBar (fun _ => Except.error "boom") "a" "boom" rfl rfl).1

/-- C8. On an initialized session the define/show operations never consult
the Capability Registry: even for a registry whose query reports the menus
feature unsupported, each operation still sends its outbound command. -/
theorem C8_no_capability_gate (rt : Runtime) (s : MenusState ε)
    (hinit : s.initialized = true) (hunsup : (isSupported rt s).1 = false) :
    (∀ viewConfig handler, (setUpViews s viewConfig handler).2
        = Except.ok [⟨"setUpViews", [MessageArg.viewConfigsArg viewConfig]⟩]) ∧
    (∀ items handler, (setNavBarMenu s items handler).2
        = Except.ok [⟨"setNavBarMenu", [MessageArg.menuItemsArg items]⟩]) ∧
    (∀ params handler, (showActionMenu s params handler).2
        = Except.ok [⟨"showActionMenu", [MessageArg.actionParamsArg params]⟩]) := by
  refine ⟨fun v h => ?_, fun i h => ?_, fun p h => ?_⟩ <;>
    simp [setUpViews, setNavBarMenu, showActionMenu, ensureInitialized, hinit]

/-- C8 witness: with a populated registry that does not declare the menus
capability, `setNavBarMenu` still sends its command. -/
theorem C8_no_capability_gate_witness :
    (setNavBarMenu (⟨true, none, none, none⟩ : MenusState String) []
        (fun _ => Except.ok true)).2
      = Except.ok [⟨"setNavBarMenu", [MessageArg.menuItemsArg []]⟩] :=
  (C8_no_capability_gate ⟨true, false⟩
      (⟨true, none, none, none⟩ : MenusState String) rfl rfl).2.1 []
    (fun _ => Except.ok true)

/-- C9. When a define/show operation fails with the Not-initialized error,
the initialization guard runs strictly before the handler store, so the
failing call leaves the module state (in particular the channel's handler
slot) exactly as it was. -/
theorem C9_state_unchanged_on_error (s : MenusState ε)
    (hinit : s.initialized = false) :
    (∀ viewConfig handler,
        (setUpViews s viewConfig handler).2 = Except.error MenusError.notInitialized ∧
        (setUpViews s viewConfig handler).1.viewConfigItemPressHandler
          = s.viewConfigItemPressHandler ∧
        (setUpViews s viewConfig handler).1 = s) ∧
    (∀ items handler,
        (setNavBarMenu s items handler).2 = Except.error MenusError.notInitialized ∧
        (setNavBarMenu s items handler).1.navBarMenuItemPressHandler
          = s.navBarMenuItemPressHandler ∧
        (setNavBarMenu s items handler).1 = s) ∧
    (∀ params handler,
        (showActionMenu s params handler).2 = Except.error MenusError.notInitialized ∧
        (showActionMenu s params handler).1.actionMenuItemPressHandler
          = s.actionMenuItemPressHandler ∧
        (showActionMenu s params handler).1 = s) := by
  refine ⟨fun v h => ?_, fun i h => ?_, fun p h => ?_⟩ <;>
    simp [setUpViews, setNavBarMenu, showActionMenu, ensureInitialized, hinit]

/-- C9 witness: a failing `setNavBarMenu` call leaves a previously stored
navigation-bar handler intact. -/
theorem C9_state_unchanged_on_error_witness :
    (setNavBarMenu (⟨false, some (fun _ => Except.ok true), none,
        none⟩ : MenusState String) [] (fun _ => Except.ok false)).1.navBarMenuItemPressHandler
      = some (fun _ => Except.ok true) :=
  ((C9_state_unchanged_on_error
      (⟨false, some (fun _ => Except.ok true), none, none⟩ : MenusState String)
      rfl).2.1 [] (fun _ => Except.ok false)).2.1

/-- C10. Each define/show operation writes only its own channel's handler
slot: after a successful call, the other two channels' slots (and the
initialization flag) are exactly what they were before. -/
theorem C10_frame (s : MenusState ε) (hinit : s.initialized = true) :
    (∀ items handler,
        (setNavBarMenu s items handler).1.actionMenuItemPressHandler
          = s.actionMenuItemPressHandler ∧
        (setNavBarMenu s items handler).1.viewConfigItemPressHandler
          = s.viewConfigItemPressHandler ∧
        (setNavBarMenu s items handler).1.initialized = s.initialized) ∧
    (∀ params handler,
        (showActionMenu s params handler).1.navBarMenuItemPressHandler
          = s.navBarMenuItemPressHandler ∧
        (showActionMenu s params handler).1.viewConfigItemPressHandler
          = s.viewConfigItemPressHandler ∧
        (showActionMenu s params handler).1.initialized = s.initialized) ∧
    (∀ viewConfig handler,
        (setUpViews s viewConfig handler).1.navBarMenuItemPressHandler
          = s.navBarMenuItemPressHandler ∧
        (setUpViews s viewConfig handler).1.actionMenuItemPressHandler
          = s.actionMenuItemPressHandler ∧
        (setUpViews s viewConfig handler).1.initialized = s.initialized) := by
  refine ⟨fun i h => ?_, fun p h => ?_, fun v h => ?_⟩ <;>
    simp [setUpViews, setNavBarMenu, showActionMenu, ensureInitialized, hinit]

/-- C10 witness: a successful `showActionMenu` call leaves a previously
stored navigation-bar handler untouched. -/
theorem C10_frame_witness :
    (showActionMenu (⟨true, some (fun _ => Except.ok true), none,
        none⟩ : MenusState String) ⟨"t", []⟩
        (fun _ => Except.ok false)).1.navBarMenuItemPressHandler
      = some (fun _ => Except.ok true) :=
  ((C10_frame (⟨true, some (fun _ => Except.ok true), none,
      none⟩ : MenusState String) rfl).2.1 ⟨"t", []⟩ (fun _ => Except.ok false)).1

end menus
